import Mathlib

/-!
Shallow embedding of `scripts/retarget_blend_shape/utils/gui.py`.

Python values and effects are made explicit:
* a Python exception is an `Exc` value carrying the class name
  (`e.__class__.__name__`), the message (`str(e)`) and the number of
  required positional arguments of the class constructor;
* fallible code returns `Except Exc α`;
* the observable GUI side effects (calls on the shared application object,
  message boxes, log calls) are recorded as a `List GuiEvent` trace;
* the file system is the list of existing paths and the environment variable
  `XBMLANGPATH` is an `Option String`, both packaged in `Env`;
* the module-level memoization caches are threaded explicitly as state.
-/

namespace RetargetBlendShape.Gui

/-- A Python exception value: its class name, its string representation and
the number of required positional arguments of its class constructor. -/
structure Exc where
  clsName : String
  msg : String
  ctorArity : Nat
deriving DecidableEq

/-- Observable GUI side effects of the module: calls on the shared Qt
application object, message-box display and logging. -/
inductive GuiEvent where
  | setOverrideCursor (cursor : String)
  | restoreOverrideCursor
  | showMessageBox (parent : Option Nat) (icon : String) (text : String) (title : String)
  | logDebug (message : String)
deriving DecidableEq

/-- A Python positional argument as seen by `display_error`: either a Qt
widget (a value for which `isinstance(args[0], QtWidgets.QWidget)` holds,
identified by its id) or any other value. -/
inductive PyValue where
  | widget (wid : Nat)
  | other (val : String)
deriving DecidableEq

/-- The constant `QtCore.Qt.WaitCursor`. -/
def QtCore_Qt_WaitCursor : String := "Qt.WaitCursor"

/-- Python `WaitCursor.__enter__`: calls `setOverrideCursor(QtCore.Qt.WaitCursor)`
on the shared application object. -/
def WaitCursor.enter : List GuiEvent := [GuiEvent.setOverrideCursor QtCore_Qt_WaitCursor]

/-- Python `WaitCursor.__exit__`: calls `restoreOverrideCursor()` on the shared
application object; the method body has no `return` statement, so it returns
`None` (modelled as `none`). -/
def WaitCursor.exit : List GuiEvent × Option Bool := ([GuiEvent.restoreOverrideCursor], none)

/-- Python truthiness of a value returned by an `__exit__` method (`None` is
falsy). -/
def truthy : Option Bool → Bool
  | none => false
  | some b => b

/-- Semantics of the Python `with` statement for a context manager whose
`__enter__` records `enterEvents`, whose `__exit__` records `exitEvents` and
returns `exitRet`: `__exit__` runs whether the body returns normally or
raises; when the body raises and `__exit__` returns a truthy value the
exception is suppressed (the statement completes without a value), otherwise
the exception propagates. -/
def withStatement {α : Type} (enterEvents exitEvents : List GuiEvent)
    (exitRet : Option Bool) (body : Except Exc α × List GuiEvent) :
    Except Exc (Option α) × List GuiEvent :=
  let res : Except Exc (Option α) :=
    match body.1 with
    | Except.ok a => Except.ok (some a)
    | Except.error e => if truthy exitRet then Except.ok none else Except.error e
  (res, enterEvents ++ body.2 ++ exitEvents)

/-- Python `with WaitCursor(): body`. -/
def WaitCursor.scope {α : Type} (body : Except Exc α × List GuiEvent) :
    Except Exc (Option α) × List GuiEvent :=
  withStatement WaitCursor.enter WaitCursor.exit.1 WaitCursor.exit.2 body

/-- A Qt application object: its C++ address and whether its Python wrapper
has the `QtWidgets.QApplication` capability type (rather than only
`QtWidgets.QCoreApplication`). -/
structure QAppObj where
  addr : Nat
  isQApplication : Bool
deriving DecidableEq

/-- Python `shiboken2.wrapInstance(addr, QtWidgets.QApplication)`: re-wraps the
native object at `addr` under the `QApplication` type without recreating it. -/
def shiboken2_wrapInstance_QApplication (addr : Nat) : QAppObj :=
  { addr := addr, isQApplication := true }

/-- The toolkit state `get_application` runs against: whether constructing
`QtWidgets.QApplication()` succeeds (it raises `TypeError` or `RuntimeError`
when an instance already exists), the address a successful construction would
allocate, and the object `QtWidgets.QApplication.instance()` returns. -/
structure QtState where
  constructSucceeds : Bool
  newAppAddr : Nat
  existingInstance : QAppObj
deriving DecidableEq

/-- Body of `get_application` before memoization: try to construct a new
`QApplication`; on `TypeError` or `RuntimeError` fall back to
`QApplication.instance()`; if the resulting object lacks the `QApplication`
type, re-wrap its C++ pointer (`shiboken2.getCppPointer(app)[0]`, the address)
via `shiboken2.wrapInstance`; otherwise return it as is. -/
def get_application_body (q : QtState) : QAppObj :=
  let app : QAppObj :=
    if q.constructSucceeds then { addr := q.newAppAddr, isQApplication := true }
    else q.existingInstance
  if !app.isQApplication then shiboken2_wrapInstance_QApplication app.addr
  else app

/-- Modelled from the spec: the `decorator.memoize` decorator is imported from
`retarget_blend_shape.utils.decorator`, whose source is not included; per the
spec it caches a function's return value keyed by its arguments so repeated
calls avoid recomputation. For the zero-argument `get_application` the cache
is one optional stored result; the pair returned is (result, cache after the
call). -/
def memoize_zero {α : Type} (cache : Option α) (body : Unit → α) : α × Option α :=
  match cache with
  | some v => (v, some v)
  | none =>
    let v := body ()
    (v, some v)

/-- Python `get_application`: the memoized body, threading the module-level
cache explicitly. -/
def get_application (q : QtState) (cache : Option QAppObj) : QAppObj × Option QAppObj :=
  memoize_zero cache (fun _ => get_application_body q)

/-- A toolkit-level main-window object wrapping a native address. -/
structure QMainWindowObj where
  addr : Nat
deriving DecidableEq

/-- The `RuntimeError` raised when the host returns a null main-window
handle. -/
def mainWindowError : Exc :=
  { clsName := "RuntimeError",
    msg := "Failed to obtain a handle on the Maya main window.",
    ctorArity := 1 }

/-- Python `get_main_window`: `ptr` is the integer value of the handle returned
by `OpenMayaUI.MQtUtil.mainWindow()` after conversion through
`six.integer_types[-1]`; a truthy (non-zero) handle is wrapped via
`shiboken2.wrapInstance` as a `QtWidgets.QMainWindow`, a zero handle raises
the descriptive `RuntimeError`. -/
def get_main_window (ptr : Nat) : Except Exc QMainWindowObj :=
  if ptr != 0 then Except.ok { addr := ptr }
  else Except.error mainWindowError

/-- The environment `get_icon_file_path` reads: the value of
`os.environ.get("XBMLANGPATH")` and the list of file-system paths that
exist. -/
structure Env where
  xbmlangpath : Option String
  fs : List String
deriving DecidableEq

/-- Python `os.pathsep` (POSIX), as the single separator character `:`. -/
def os_pathsep : Char := ':'

/-- Python `os.path.exists`. -/
def os_path_exists (e : Env) (p : String) : Bool := e.fs.contains p

/-- Whether `p` is a prefix of `s` (Python `s.startswith(p)`). -/
def str_startsWith (s p : String) : Bool := p.data.isPrefixOf s.data

/-- Whether `p` is a suffix of `s` (Python `s.endswith(p)`). -/
def str_endsWith (s p : String) : Bool := p.data.reverse.isPrefixOf s.data.reverse

/-- Python `os.path.join` for a single component (POSIX rules). -/
def os_path_join (d f : String) : String :=
  if str_startsWith f ("/") then f
  else if d = "" then f
  else if str_endsWith d ("/") then d ++ f
  else d ++ "/" ++ f

/-- Helper for `py_split`: accumulates the current piece while scanning the
characters. -/
def py_split_aux (sep : Char) : List Char → List Char → List String
  | [], acc => [String.mk acc]
  | c :: rest, acc =>
    if c = sep then String.mk acc :: py_split_aux sep rest []
    else py_split_aux sep rest (acc ++ [c])

/-- Python `s.split(sep)` for a one-character separator: every occurrence of
the separator starts a new piece; empty pieces are kept. -/
def py_split (s : String) (sep : Char) : List String := py_split_aux sep s.data []

/-- Python `icon_directories.split(os.pathsep) if icon_directories else []`: an
absent or empty variable yields the empty list of directories. -/
def icon_directories (env : Option String) : List String :=
  match env with
  | none => []
  | some s => if s = "" then [] else py_split s os_pathsep

/-- The `for` loop of `get_icon_file_path`: return the joined path of the first
directory, in list order, in which the file exists. -/
def find_icon (e : Env) (dirs : List String) (file_name : String) : Option String :=
  match dirs with
  | [] => none
  | d :: rest =>
    let file_path := os_path_join d file_name
    if os_path_exists e file_path then some file_path
    else find_icon e rest file_name

/-- The `log.debug` message formatted on a miss. -/
def miss_message (file_name : String) (dirs : List String) : String :=
  "File '" ++ file_name ++ "' not found in [" ++ String.intercalate (", ") dirs ++ "]."

/-- Body of `get_icon_file_path` before memoization: search the split
directories in order; on a miss log at debug level and return the fallback
resource path `:/<file_name>`. -/
def get_icon_file_path_body (e : Env) (file_name : String) : String × List GuiEvent :=
  match find_icon e (icon_directories e.xbmlangpath) file_name with
  | some file_path => (file_path, [])
  | none =>
    (":/" ++ file_name,
     [GuiEvent.logDebug (miss_message file_name (icon_directories e.xbmlangpath))])

/-- Modelled from the spec: `decorator.memoize` (source not included) applied
to the one-argument `get_icon_file_path`, keyed by the file name; the
module-level cache is an association list threaded explicitly. The triple
returned is (result, cache after the call, trace). -/
def get_icon_file_path (e : Env) (cache : List (String × String)) (file_name : String) :
    String × List (String × String) × List GuiEvent :=
  match cache.lookup file_name with
  | some file_path => (file_path, cache, [])
  | none =>
    let r := get_icon_file_path_body e file_name
    (r.1, (file_name, r.1) :: cache, r.2)

/-- The `TypeError` raised inside `six.reraise` when the exception class
constructor does not accept the single value argument. -/
def reraiseTypeError : Exc :=
  { clsName := "TypeError",
    msg := "exception class constructor takes more than one argument",
    ctorArity := 1 }

/-- Python `six.reraise(tp, value, tb)`, modelled from its documented use in
the source: it re-raises an exception of class `tp` from the single value
argument; as the source comment notes, a class whose constructor requires
more than one argument makes this fail with a `TypeError`. -/
def six_reraise (tpName : String) (tpArity : Nat) (v : Exc) : Exc :=
  if tpArity > 1 then reraiseTypeError
  else { clsName := tpName, msg := v.msg, ctorArity := tpArity }

/-- Python `isinstance(x, TypeError)` for the model (subclasses of `TypeError`
are not modelled). -/
def isTypeError (x : Exc) : Bool := x.clsName = "TypeError"

/-- The inner re-raise block of the wrapper:
`try: raise six.reraise(t, v, tb) except TypeError: raise
six.reraise(RuntimeError, v, tb)` — the exception the wrapper finally raises
for a caught exception `e`. Note that the `except TypeError:` clause also
catches a successfully re-raised original exception that is itself a
`TypeError`. -/
def reraise_block (e : Exc) : Exc :=
  let x := six_reraise e.clsName e.ctorArity e
  if isTypeError x then six_reraise ("RuntimeError") 1 e
  else x

/-- Python `parent = args[0] if args and isinstance(args[0], QtWidgets.QWidget)
else None`: the widget identity of the first positional argument, when it is
a widget. -/
def errorDialogParent (args : List PyValue) : Option Nat :=
  match args with
  | PyValue.widget wid :: _ => some wid
  | _ => none

/-- Python `display_error(func)` applied to positional arguments `args`: the
wrapper's outcome together with the GUI trace. On success the callable's
result passes through with no dialog; on an exception `e` a critical modal
message box is shown (parent per `errorDialogParent`, text `str(e)`, title
`e.__class__.__name__`, an Ok button, blocking `exec_`) and then
`reraise_block e` is raised. -/
def display_error {α : Type} (func : List PyValue → Except Exc α) (args : List PyValue) :
    Except Exc α × List GuiEvent :=
  match func args with
  | Except.ok ret => (Except.ok ret, [])
  | Except.error e =>
    (Except.error (reraise_block e),
     [GuiEvent.showMessageBox (errorDialogParent args) ("Critical") e.msg e.clsName])

/-- A custom exception whose class constructor requires two arguments. -/
def twoArgError : Exc := { clsName := "TwoArgError", msg := "boom", ctorArity := 2 }

/-- A wrapped function that raises `twoArgError` on every call. -/
def raiseTwoArg : List PyValue → Except Exc Nat := fun _ => Except.error twoArgError

/-- The exception `ValueError("boom")`. -/
def valueErrorBoom : Exc := { clsName := "ValueError", msg := "boom", ctorArity := 1 }

/-- A wrapped function that raises `ValueError("boom")` on every call. -/
def raiseValueError : List PyValue → Except Exc Nat := fun _ => Except.error valueErrorBoom

/-- C9: for every wrapped callable and argument list on which it returns
normally, the wrapper returns exactly the callable's result and shows no
dialog. -/
theorem display_error_passthrough {α : Type} (func : List PyValue → Except Exc α)
    (args : List PyValue) (ret : α) (h : func args = Except.ok ret) :
    display_error func args = (Except.ok ret, []) := by
  unfold display_error
  rw [h]

/-- A wrapped function that returns 42 on every call. -/
def returnsFortyTwo : List PyValue → Except Exc Nat := fun _ => Except.ok 42

/-- C9 witness: the pass-through at a concrete callable and argument list. -/
theorem display_error_passthrough_witness :
    display_error returnsFortyTwo [PyValue.other ("x")] = (Except.ok 42, []) :=
  display_error_passthrough returnsFortyTwo [PyValue.other ("x")] 42 rfl

/-- C1 counterexample: wrapping a function that raises a custom exception
whose class constructor requires two arguments, with a widget first argument,
the wrapper does not re-raise the original exception (the re-raise block
substitutes a `RuntimeError`), refuting the claim's quantification over every
raised exception. -/
theorem display_error_not_always_original :
    (display_error raiseTwoArg [PyValue.widget 7]).1 ≠ Except.error twoArgError := by
  intro h
  exact absurd (Except.error.inj h) (by decide)

/-- C1 (amended): wrapping `func`, a call whose invocation raises `e` shows a
critical message box whose parent is the first positional argument when that
argument is a widget (else no parent), whose title is the class name of `e`
and whose text is `str(e)`; and, provided the class of `e` accepts the single
value argument (constructor arity at most one) and `e` is not a `TypeError`,
the original exception `e` is re-raised to the caller. -/
theorem display_error_shows_dialog_and_reraises {α : Type}
    (func : List PyValue → Except Exc α) (args : List PyValue) (e : Exc)
    (hcall : func args = Except.error e) (harity : e.ctorArity ≤ 1)
    (hty : e.clsName ≠ "TypeError") :
    display_error func args =
      (Except.error e,
       [GuiEvent.showMessageBox (errorDialogParent args) ("Critical") e.msg e.clsName]) := by
  have hna : ¬ e.ctorArity > 1 := by omega
  have hre : reraise_block e = e := by
    unfold reraise_block six_reraise isTypeError
    simp [hna, hty]
  simp [display_error, hcall, hre]

/-- C1 witness: a function raising `ValueError("boom")` called with a widget
first argument results in a dialog with that widget as parent, title
`ValueError`, body `boom`, and the original exception re-raised. -/
theorem display_error_shows_dialog_and_reraises_witness :
    display_error raiseValueError [PyValue.widget 3] =
      (Except.error valueErrorBoom,
       [GuiEvent.showMessageBox (some 3) ("Critical") ("boom") ("ValueError")]) :=
  display_error_shows_dialog_and_reraises raiseValueError [PyValue.widget 3]
    valueErrorBoom rfl (by decide) (by decide)

/-- C2: when the raised exception's class constructor requires more than one
argument, the wrapper raises a generic `RuntimeError` carrying the original
exception's value instead of crashing a second time during re-raise. -/
theorem display_error_runtime_fallback {α : Type}
    (func : List PyValue → Except Exc α) (args : List PyValue) (e : Exc)
    (hcall : func args = Except.error e) (harity : 1 < e.ctorArity) :
    (display_error func args).1 =
      Except.error { clsName := "RuntimeError", msg := e.msg, ctorArity := 1 } := by
  have hre : reraise_block e =
      { clsName := "RuntimeError", msg := e.msg, ctorArity := 1 } := by
    unfold reraise_block six_reraise isTypeError reraiseTypeError
    simp [harity]
  simp [display_error, hcall, hre]

/-- A custom exception whose class constructor requires two arguments, as in
the spec's sixth testable property. -/
def customTwoArg : Exc := { clsName := "InvalidChoice", msg := "bad", ctorArity := 2 }

/-- A wrapped function that raises `customTwoArg` on every call. -/
def raiseCustomTwoArg : List PyValue → Except Exc Nat := fun _ => Except.error customTwoArg

/-- C2 witness: a concrete two-argument custom exception is re-raised as a
generic `RuntimeError` carrying its value. -/
theorem display_error_runtime_fallback_witness :
    (display_error raiseCustomTwoArg []).1 =
      Except.error { clsName := "RuntimeError", msg := "bad", ctorArity := 1 } :=
  display_error_runtime_fallback raiseCustomTwoArg [] customTwoArg rfl (by decide)

/-- C3: for every body, whether it returns normally or raises, the wait-cursor
scope records the set-override call first, then the body's events, then the
restore call last: the override cursor is set on entry and restored on exit,
in that order, and is never leaked when the body raises. -/
theorem waitCursor_trace {α : Type} (bodyRes : Except Exc α) (bodyEvents : List GuiEvent) :
    (WaitCursor.scope (bodyRes, bodyEvents)).2 =
      GuiEvent.setOverrideCursor QtCore_Qt_WaitCursor ::
        (bodyEvents ++ [GuiEvent.restoreOverrideCursor]) := by
  simp [WaitCursor.scope, withStatement, WaitCursor.enter, WaitCursor.exit]

/-- C10: `WaitCursor.__exit__` returns `None`, a falsy value, so an exception
raised inside the scope is never suppressed: after the cursor is restored the
scope's result is still that exception. -/
theorem waitCursor_exit_not_suppressing :
    WaitCursor.exit.2 = none ∧
    ∀ (e : Exc) (bodyEvents : List GuiEvent),
      (WaitCursor.scope ((Except.error e : Except Exc Nat), bodyEvents)).1 =
        Except.error e := by
  constructor
  · rfl
  · intro e bodyEvents
    simp [WaitCursor.scope, withStatement, WaitCursor.exit, truthy]

/-- C6: `get_main_window` raises the descriptive `RuntimeError` exactly when
the host returns a zero handle; a non-zero handle is returned wrapped as a
main-window object at that integer address. -/
theorem get_main_window_spec (ptr : Nat) :
    (get_main_window ptr = Except.error mainWindowError ↔ ptr = 0) ∧
    (ptr ≠ 0 → get_main_window ptr = Except.ok { addr := ptr }) := by
  unfold get_main_window
  by_cases h : ptr = 0
  · subst h
    simp
  · simp [h]

/-- C6 witness: a zero handle raises and a non-zero handle is wrapped. -/
theorem get_main_window_spec_witness :
    get_main_window 0 = Except.error mainWindowError ∧
      get_main_window 5 = Except.ok { addr := 5 } :=
  ⟨(get_main_window_spec 0).1.mpr rfl, (get_main_window_spec 5).2 (by decide)⟩

/-- C7: `get_application` is memoized: starting from the empty cache, a second
call returns exactly the object the first call resolved, whatever the toolkit
state is at the second call; and every call on a filled cache returns the
cached object, leaving the cache unchanged. -/
theorem get_application_memoized (q1 q2 : QtState) :
    (get_application q2 (get_application q1 none).2).1 = (get_application q1 none).1 ∧
    ∀ (q : QtState) (app : QAppObj), get_application q (some app) = (app, some app) := by
  constructor
  · rfl
  · intro q app
    rfl

/-- C4: the body of `get_icon_file_path` returns the path joined from the
first directory, in the order of the split `XBMLANGPATH` value, in which the
file exists. -/
theorem get_icon_file_path_first_match (e : Env) (file_name d : String)
    (pre post : List String)
    (hdirs : icon_directories e.xbmlangpath = pre ++ d :: post)
    (hpre : ∀ d2 ∈ pre, os_path_exists e (os_path_join d2 file_name) = false)
    (hd : os_path_exists e (os_path_join d file_name) = true) :
    get_icon_file_path_body e file_name = (os_path_join d file_name, []) := by
  have hfind : ∀ (l : List String),
      (∀ d2 ∈ l, os_path_exists e (os_path_join d2 file_name) = false) →
      find_icon e (l ++ d :: post) file_name = some (os_path_join d file_name) := by
    intro l
    induction l with
    | nil =>
      intro _
      simp [find_icon, hd]
    | cons x xs ih =>
      intro hl
      have hx := hl x (List.mem_cons_self x xs)
      simp only [List.cons_append, find_icon, hx]
      simp only [Bool.false_eq_true, if_false]
      exact ih (fun d2 hm => hl d2 (List.mem_cons_of_mem x hm))
  unfold get_icon_file_path_body
  rw [hdirs, hfind pre hpre]

/-- The environment of the spec's second testable property: `XBMLANGPATH`
lists directories `A` and `B` and `x.png` exists only in `B`. -/
def envAB : Env := { xbmlangpath := some "A:B", fs := ["B/x.png"] }

/-- C4 witness: with directories `[A, B]` and `x.png` existing only in `B`,
the resolver returns `B/x.png`. -/
theorem get_icon_file_path_first_match_witness :
    get_icon_file_path_body envAB ("x.png") = ("B/x.png", []) := by
  rw [get_icon_file_path_first_match envAB ("x.png") ("B") ["A"] []
    (by decide) (by decide) (by decide)]
  decide

/-- C5: when the file exists in none of the searched directories (including
the case of an absent `XBMLANGPATH`, an empty directory list), the body does
not raise: it logs the miss at debug level and returns the fallback string
`:/` followed by the file name. -/
theorem get_icon_file_path_fallback (e : Env) (file_name : String)
    (h : ∀ d ∈ icon_directories e.xbmlangpath,
      os_path_exists e (os_path_join d file_name) = false) :
    get_icon_file_path_body e file_name =
      (":/" ++ file_name,
       [GuiEvent.logDebug (miss_message file_name (icon_directories e.xbmlangpath))]) := by
  have hfind : ∀ (l : List String),
      (∀ d ∈ l, os_path_exists e (os_path_join d file_name) = false) →
      find_icon e l file_name = none := by
    intro l
    induction l with
    | nil =>
      intro _
      rfl
    | cons x xs ih =>
      intro hl
      have hx := hl x (List.mem_cons_self x xs)
      simp only [find_icon, hx]
      simp only [Bool.false_eq_true, if_false]
      exact ih (fun d2 hm => hl d2 (List.mem_cons_of_mem x hm))
  unfold get_icon_file_path_body
  rw [hfind _ h]

/-- An environment with no `XBMLANGPATH` set and an empty file system. -/
def envEmpty : Env := { xbmlangpath := none, fs := [] }

/-- C5 witness: with `XBMLANGPATH` absent, looking up `x.png` returns
`:/x.png` with a debug log of the miss. -/
theorem get_icon_file_path_fallback_witness :
    get_icon_file_path_body envEmpty ("x.png") =
      (":/x.png", [GuiEvent.logDebug (miss_message ("x.png") [])]) :=
  get_icon_file_path_fallback envEmpty ("x.png") (by intro d hd; cases hd)

/-- C8: `get_icon_file_path` is memoized per file name: once a first lookup
for a name has run, a later call with the same name returns the cached
result, even when the environment (the `XBMLANGPATH` value or the file
system) has changed in between. -/
theorem get_icon_file_path_memoized (e1 e2 : Env) (cache : List (String × String))
    (file_name : String) (h : cache.lookup file_name = none) :
    (get_icon_file_path e2 (get_icon_file_path e1 cache file_name).2.1 file_name).1 =
      (get_icon_file_path e1 cache file_name).1 := by
  unfold get_icon_file_path
  rw [h]
  simp [List.lookup]

/-- An environment where `XBMLANGPATH` is the single directory `A` and
`A/x.png` exists. -/
def envA : Env := { xbmlangpath := some "A", fs := ["A/x.png"] }

/-- C8 witness: a first lookup under an environment resolving `x.png` in `A`,
then a second lookup after `XBMLANGPATH` was unset, still returns the first
(cached) result. -/
theorem get_icon_file_path_memoized_witness :
    (get_icon_file_path envEmpty (get_icon_file_path envA [] ("x.png")).2.1 ("x.png")).1 =
      (get_icon_file_path envA [] ("x.png")).1 :=
  get_icon_file_path_memoized envA envEmpty [] ("x.png") rfl
